import Mathlib

/-!
The gRPC query surface of the EVM keeper (`x/evm/keeper/grpc_query.go`).

A shallow embedding of the thirteen query endpoints of `Keeper`.

* Go pointers that may be nil are `Option`s; a Go `(resp, err)` pair is a
  pair of `Option`s.
* The keeper methods, the `types`/`ethermint`/`ethcmn`/`sdk` helpers and the
  `metrics` package are not part of `grpc_query.go`; they are parameters
  (`Lib`, `Keeper`) of the embedding.
* Every call an endpoint makes on a collaborator is recorded, in program
  order, in the `calls` trace of the run.
-/

namespace Ethermint

set_option linter.dupNamespace false

/-- Byte strings (`[]byte`), one natural number below 256 per byte. -/
abbrev Bytes := List Nat

/-! ## Data model -/

/-- Type `ethcmn.Address`: a 20-byte account identifier. -/
structure ethcmn.Address where
  bytes : Bytes
  deriving DecidableEq, Repr

/-- Type `ethcmn.Hash`: a 32-byte transaction or block identifier. -/
structure ethcmn.Hash where
  bytes : Bytes
  deriving DecidableEq, Repr

/-- The gRPC status codes (`google.golang.org/grpc/codes`) that can be observed here. -/
inductive codes where
  | OK
  | InvalidArgument
  | NotFound
  | Internal
  | Unknown
  deriving DecidableEq, Repr

/-- Name of a status code, as printed inside an error message. -/
def codes.String : codes → String
  | .OK => "OK"
  | .InvalidArgument => "InvalidArgument"
  | .NotFound => "NotFound"
  | .Internal => "Internal"
  | .Unknown => "Unknown"

/-- Go `error` values: either built by `status.Error`, and then carrying a gRPC
code, or any other error (a registered SDK error, a wrapped error, ...). -/
inductive Error where
  | status (code : codes) (msg : String)
  | plain (msg : String)
  deriving DecidableEq, Repr

/-- Function `status.Error(c, msg)`. -/
def status.Error (c : codes) (msg : String) : Error := Error.status c msg

/-- Method `err.Error()`: the message of an error. -/
def Error.Error : Error → String
  | .status c msg => "rpc error: code = " ++ c.String ++ " desc = " ++ msg
  | .plain msg => msg

/-- Function `status.Code(err)`: the code a gRPC peer observes for a returned error:
`OK` for nil, the carried code for a status error, `Unknown` for any other error. -/
def status.Code : Option Ethermint.Error → codes
  | none => codes.OK
  | some (.status c _) => c
  | some (.plain _) => codes.Unknown

/-- Metric tags (`k.svcTags`). -/
abbrev Tags := List (String × String)

/-- Type `sdk.Context`: the ambient request context. -/
structure sdk.Context where
  BlockHeight : Int
  ChainID : String
  TxBytes : Bytes
  IsCheckTx : Bool
  deriving DecidableEq, Repr

/-- Type `context.Context` as received by a handler: it wraps the SDK context. -/
structure context.Context where
  sdkContext : sdk.Context
  deriving DecidableEq, Repr

/-- Function `sdk.UnwrapSDKContext`. -/
def sdk.UnwrapSDKContext (c : context.Context) : sdk.Context := c.sdkContext

/-- The state object of one address, seen through its three accessors
`Balance()`, `CodeHash()` and `Nonce()`. -/
structure StateObject where
  Balance : Int
  CodeHash : Bytes
  Nonce : Nat
  deriving DecidableEq, Repr

/-- A ledger account as returned by the account keeper. -/
structure AccountI where
  Sequence : Nat
  AccountNumber : Nat
  deriving DecidableEq, Repr

/-- An EVM log as produced by execution (`ethtypes.Log`). -/
structure EthLog where
  Address : ethcmn.Address
  Topics : List ethcmn.Hash
  Data : Bytes
  deriving DecidableEq, Repr

/-- A log in its response form (`types.Log`). -/
structure Log where
  Address : String
  Topics : List String
  Data : Bytes
  deriving DecidableEq, Repr

/-- Type `types.TransactionLogs`: the logs of one transaction. -/
structure TransactionLogs where
  Hash : String
  Logs : List Log
  deriving DecidableEq, Repr

/-- Type `types.TxReceipt`, kept as its recorded content. -/
structure TxReceipt where
  Hash : Bytes
  BlockHeight : Nat
  Result : Bytes
  deriving DecidableEq, Repr

/-- Type `ethtypes.Bloom`. -/
structure Bloom where
  bits : Bytes
  deriving DecidableEq, Repr

/-- Method `bloom.Bytes()`. -/
def Bloom.Bytes (b : Bloom) : Bytes := b.bits

/-- Type `types.Params`, kept as its recorded content. -/
structure Params where
  raw : Bytes
  deriving DecidableEq, Repr

/-- Type `types.ChainConfig`, kept as its recorded content. -/
structure ChainConfig where
  raw : Bytes
  deriving DecidableEq, Repr

/-- Type `types.StateTransition` as built by `StaticCall`. The field `Csdb` is the
state database bound to a context (`k.CommitStateDB.WithContext(ctx)`). -/
structure StateTransition where
  AccountNonce : Nat
  Price : Int
  GasLimit : Nat
  Recipient : Option ethcmn.Address
  Amount : Int
  Payload : Bytes
  Csdb : sdk.Context
  ChainID : Int
  TxHash : Option ethcmn.Hash
  Sender : ethcmn.Address
  Simulate : Bool
  deriving DecidableEq, Repr

/-! ## Requests and responses -/

structure QueryAccountRequest where
  Address : String
  deriving DecidableEq, Repr

structure QueryAccountResponse where
  Balance : String
  CodeHash : Bytes
  Nonce : Nat
  deriving DecidableEq, Repr

structure QueryCosmosAccountRequest where
  Address : String
  deriving DecidableEq, Repr

structure QueryCosmosAccountResponse where
  CosmosAddress : String
  Sequence : Nat := 0
  AccountNumber : Nat := 0
  deriving DecidableEq, Repr

structure QueryBalanceRequest where
  Address : String
  deriving DecidableEq, Repr

structure QueryBalanceResponse where
  Balance : String
  deriving DecidableEq, Repr

structure QueryStorageRequest where
  Address : String
  Key : String
  deriving DecidableEq, Repr

structure QueryStorageResponse where
  Value : String
  deriving DecidableEq, Repr

structure QueryCodeRequest where
  Address : String
  deriving DecidableEq, Repr

structure QueryCodeResponse where
  Code : Bytes
  deriving DecidableEq, Repr

structure QueryTxLogsRequest where
  Hash : String
  deriving DecidableEq, Repr

structure QueryTxLogsResponse where
  Logs : List Log
  deriving DecidableEq, Repr

structure QueryTxReceiptRequest where
  Hash : String
  deriving DecidableEq, Repr

structure QueryTxReceiptResponse where
  Receipt : Option TxReceipt
  deriving DecidableEq, Repr

structure QueryTxReceiptsByBlockHeightRequest where
  Height : Int
  deriving DecidableEq, Repr

structure QueryTxReceiptsByBlockHeightResponse where
  Receipts : List TxReceipt
  deriving DecidableEq, Repr

structure QueryTxReceiptsByBlockHashRequest where
  Hash : String
  deriving DecidableEq, Repr

structure QueryTxReceiptsByBlockHashResponse where
  Receipts : List TxReceipt
  deriving DecidableEq, Repr

structure QueryBlockLogsRequest where
  Hash : String
  deriving DecidableEq, Repr

structure QueryBlockLogsResponse where
  TxLogs : List TransactionLogs
  deriving DecidableEq, Repr

structure QueryBlockBloomRequest where
  Height : Int
  deriving DecidableEq, Repr

structure QueryBlockBloomResponse where
  Bloom : Bytes
  deriving DecidableEq, Repr

structure QueryParamsRequest where
  deriving DecidableEq, Repr

structure QueryParamsResponse where
  Params : Params
  deriving DecidableEq, Repr

structure QueryStaticCallRequest where
  Address : String
  Input : Bytes
  deriving DecidableEq, Repr

structure QueryStaticCallResponse where
  Data : Bytes
  deriving DecidableEq, Repr

/-- What a Go handler returns: a response pointer and an error, each possibly nil. -/
abbrev Ret (α : Type) := Option α × Option Error

/-- How a call of a Go function ends: it returns its pair, or the goroutine
panics on a nil pointer dereference. -/
inductive Outcome (α : Type) where
  | returned (resp : Option α) (err : Option Error)
  | nilPointerDereference
  deriving DecidableEq, Repr

/-! ## Collaborator calls and the query monad -/

/-- The calls an endpoint makes on its collaborators. -/
inductive Call where
  | ReportFuncCall (tags : Tags)
  | ReportFuncTiming (tags : Tags)
  | ReportFuncError (tags : Tags)
  | doneFn (tags : Tags)
  | GetOrNewStateObject (addr : ethcmn.Address)
  | GetBalance (addr : ethcmn.Address)
  | GetState (addr : ethcmn.Address) (key : ethcmn.Hash)
  | GetCode (addr : ethcmn.Address)
  | GetAccount (addr : Bytes)
  | GetLogs (hash : ethcmn.Hash)
  | GetTxReceiptFromHash (hash : ethcmn.Hash)
  | GetTxReceiptsByBlockHeight (height : Int)
  | GetTxReceiptsByBlockHash (hash : ethcmn.Hash)
  | GetAllTxLogs
  | GetBlockBloom (height : Int)
  | GetParams
  | GetChainConfig
  | StaticCall (st : StateTransition)
  deriving DecidableEq, Repr

/-- A read of the state store or of the account keeper. -/
def Call.isStateRead : Call → Bool
  | .GetOrNewStateObject _ => true
  | .GetBalance _ => true
  | .GetState _ _ => true
  | .GetCode _ => true
  | .GetAccount _ => true
  | _ => false

/-- A lookup in the receipt, log or bloom index. -/
def Call.isIndexLookup : Call → Bool
  | .GetLogs _ => true
  | .GetTxReceiptFromHash _ => true
  | .GetTxReceiptsByBlockHeight _ => true
  | .GetTxReceiptsByBlockHash _ => true
  | .GetAllTxLogs => true
  | .GetBlockBloom _ => true
  | _ => false

/-- A call into the `metrics` package. -/
def Call.isMetric : Call → Bool
  | .ReportFuncCall _ => true
  | .ReportFuncTiming _ => true
  | .ReportFuncError _ => true
  | .doneFn _ => true
  | _ => false

/-- The result of running a piece of handler code on a store: its value, the
collaborator calls it made in order, and the store it leaves. -/
structure Run (σ α : Type) where
  out : α
  calls : List Call
  store : σ

/-- Handler code over a store of type `σ`. -/
def Q (σ α : Type) : Type := σ → Run σ α

/-- Code that returns `a` without any call. -/
def Q.pure {σ α : Type} (a : α) : Q σ α := fun s => ⟨a, [], s⟩

/-- Sequencing: run `m`, then `f` on its value and on the store it left. -/
def Q.bind {σ α β : Type} (m : Q σ α) (f : α → Q σ β) : Q σ β := fun s =>
  ⟨(f (m s).out (m s).store).out,
   (m s).calls ++ (f (m s).out (m s).store).calls,
   (f (m s).out (m s).store).store⟩

instance (σ : Type) : Monad (Q σ) where
  pure := Q.pure
  bind := Q.bind

/-- A recorded call that reads the store. -/
def Q.read {σ α : Type} (e : Call) (f : σ → α) : Q σ α := fun s => ⟨f s, [e], s⟩

/-- A recorded call that does not depend on the store. -/
def Q.emit {σ : Type} (e : Call) : Q σ Unit := fun s => ⟨(), [e], s⟩

/-- Go `defer d()`: `d` runs when the body returns. -/
def defer {σ α : Type} (d : Q σ Unit) (body : Q σ α) : Q σ α := do
  let r ← body
  d
  Pure.pure r

/-- Function `metrics.ReportFuncCall`. -/
def metrics.ReportFuncCall {σ : Type} (tags : Tags) : Q σ Unit :=
  Q.emit (Call.ReportFuncCall tags)

/-- Function `metrics.ReportFuncError`. -/
def metrics.ReportFuncError {σ : Type} (tags : Tags) : Q σ Unit :=
  Q.emit (Call.ReportFuncError tags)

/-- Function `metrics.ReportFuncTiming`: returns the function that stops the timer. -/
def metrics.ReportFuncTiming {σ : Type} (tags : Tags) : Q σ (Q σ Unit) := fun s =>
  ⟨Q.emit (Call.doneFn tags), [Call.ReportFuncTiming tags], s⟩

/-- The package-level helpers `grpc_query.go` uses and does not define. -/
structure Lib where
  /-- Function `types.IsZeroAddress`. -/
  IsZeroAddress : String → Bool
  /-- Function `types.IsEmptyHash`. -/
  IsEmptyHash : String → Bool
  /-- Registered errors of `x/evm/types`. -/
  ErrZeroAddress : Error
  ErrEmptyHash : Error
  ErrTxReceiptNotFound : Error
  ErrBloomNotFound : Error
  ErrChainConfigNotFound : Error
  /-- Function `ethcmn.HexToAddress`. -/
  HexToAddress : String → ethcmn.Address
  /-- Function `ethcmn.HexToHash`. -/
  HexToHash : String → ethcmn.Hash
  /-- Function `ethcmn.BytesToHash`. -/
  BytesToHash : Bytes → ethcmn.Hash
  /-- Function `ethcmn.FromHex`. -/
  FromHex : String → Bytes
  /-- Method `state.String()` of a hash. -/
  HashString : ethcmn.Hash → String
  /-- Function `ethermint.MarshalBigInt`: the text and the error, as in Go. -/
  MarshalBigInt : Int → String × Option Error
  /-- Function `ethermint.ParseChainID`. -/
  ParseChainID : String → Int × Option Error
  /-- Method `sdk.AccAddress(bz).String()`. -/
  AccAddressString : Bytes → String
  /-- Function `sdk.AccAddressFromBech32`. -/
  AccAddressFromBech32 : String → Bytes × Option Error
  /-- Method `tmtypes.Tx(bz).Hash()`. -/
  TxHash : Bytes → Bytes
  /-- Function `types.NewTransactionLogsFromEth`. -/
  NewTransactionLogsFromEth : ethcmn.Hash → List EthLog → TransactionLogs

/-- The keeper: its metric tags and, over a store of type `σ`, what each of its
methods (and those of its account keeper) reads from the store. The last field is
the interpreter behind `StateTransition.StaticCall`: next to its result it hands
back the working copy of the store it executed on, with the writes it staged. -/
structure Keeper (σ : Type) where
  svcTags : Tags
  getOrNewStateObject : sdk.Context → ethcmn.Address → σ → StateObject
  getBalance : sdk.Context → ethcmn.Address → σ → Int
  getState : sdk.Context → ethcmn.Address → ethcmn.Hash → σ → ethcmn.Hash
  getCode : sdk.Context → ethcmn.Address → σ → Bytes
  getAccount : sdk.Context → Bytes → σ → Option AccountI
  getLogs : sdk.Context → ethcmn.Hash → σ → List EthLog × Option Error
  getTxReceiptFromHash : sdk.Context → ethcmn.Hash → σ → Option TxReceipt × Bool
  getTxReceiptsByBlockHeight : sdk.Context → Int → σ → List TxReceipt
  getTxReceiptsByBlockHash : sdk.Context → ethcmn.Hash → σ → List TxReceipt
  getAllTxLogs : sdk.Context → σ → List TransactionLogs
  getBlockBloom : sdk.Context → Int → σ → Bloom × Bool
  getParams : sdk.Context → σ → Params
  getChainConfig : sdk.Context → σ → ChainConfig × Bool
  evm : sdk.Context → StateTransition → ChainConfig → σ → (Bytes × Option Error) × σ

variable {σ : Type}

/-- Method `k.GetOrNewStateObject(ctx, addr)`. Its body is not in `grpc_query.go`; per
spec 3 and 4.2 the object of an absent account is materialized for the request
(zero-valued) and is not committed, so the call is a read of the store. -/
def Keeper.GetOrNewStateObject (k : Keeper σ) (ctx : sdk.Context) (addr : ethcmn.Address) :
    Q σ StateObject :=
  Q.read (Call.GetOrNewStateObject addr) (k.getOrNewStateObject ctx addr)

/-- Method `k.GetBalance(ctx, addr)`. -/
def Keeper.GetBalance (k : Keeper σ) (ctx : sdk.Context) (addr : ethcmn.Address) : Q σ Int :=
  Q.read (Call.GetBalance addr) (k.getBalance ctx addr)

/-- Method `k.GetState(ctx, addr, key)`. -/
def Keeper.GetState (k : Keeper σ) (ctx : sdk.Context) (addr : ethcmn.Address)
    (key : ethcmn.Hash) : Q σ ethcmn.Hash :=
  Q.read (Call.GetState addr key) (k.getState ctx addr key)

/-- Method `k.GetCode(ctx, addr)`. -/
def Keeper.GetCode (k : Keeper σ) (ctx : sdk.Context) (addr : ethcmn.Address) : Q σ Bytes :=
  Q.read (Call.GetCode addr) (k.getCode ctx addr)

/-- Method `k.accountKeeper.GetAccount(ctx, addr)`. -/
def Keeper.GetAccount (k : Keeper σ) (ctx : sdk.Context) (addr : Bytes) :
    Q σ (Option AccountI) :=
  Q.read (Call.GetAccount addr) (k.getAccount ctx addr)

/-- Method `k.GetLogs(ctx, hash)`. -/
def Keeper.GetLogs (k : Keeper σ) (ctx : sdk.Context) (hash : ethcmn.Hash) :
    Q σ (List EthLog × Option Error) :=
  Q.read (Call.GetLogs hash) (k.getLogs ctx hash)

/-- Method `k.GetTxReceiptFromHash(ctx, hash)`. -/
def Keeper.GetTxReceiptFromHash (k : Keeper σ) (ctx : sdk.Context) (hash : ethcmn.Hash) :
    Q σ (Option TxReceipt × Bool) :=
  Q.read (Call.GetTxReceiptFromHash hash) (k.getTxReceiptFromHash ctx hash)

/-- Method `k.GetTxReceiptsByBlockHeight(ctx, height)`. -/
def Keeper.GetTxReceiptsByBlockHeight (k : Keeper σ) (ctx : sdk.Context) (height : Int) :
    Q σ (List TxReceipt) :=
  Q.read (Call.GetTxReceiptsByBlockHeight height) (k.getTxReceiptsByBlockHeight ctx height)

/-- Method `k.GetTxReceiptsByBlockHash(ctx, hash)`. -/
def Keeper.GetTxReceiptsByBlockHash (k : Keeper σ) (ctx : sdk.Context) (hash : ethcmn.Hash) :
    Q σ (List TxReceipt) :=
  Q.read (Call.GetTxReceiptsByBlockHash hash) (k.getTxReceiptsByBlockHash ctx hash)

/-- Method `k.GetAllTxLogs(ctx)`. -/
def Keeper.GetAllTxLogs (k : Keeper σ) (ctx : sdk.Context) : Q σ (List TransactionLogs) :=
  Q.read Call.GetAllTxLogs (k.getAllTxLogs ctx)

/-- Method `k.GetBlockBloom(ctx, height)`. -/
def Keeper.GetBlockBloom (k : Keeper σ) (ctx : sdk.Context) (height : Int) :
    Q σ (Bloom × Bool) :=
  Q.read (Call.GetBlockBloom height) (k.getBlockBloom ctx height)

/-- Method `k.GetParams(ctx)`. -/
def Keeper.GetParams (k : Keeper σ) (ctx : sdk.Context) : Q σ Params :=
  Q.read Call.GetParams (k.getParams ctx)

/-- Method `k.GetChainConfig(ctx)`. -/
def Keeper.GetChainConfig (k : Keeper σ) (ctx : sdk.Context) : Q σ (ChainConfig × Bool) :=
  Q.read Call.GetChainConfig (k.getChainConfig ctx)

/-- Modelled from the spec: the read-only execution entry point
`StateTransition.StaticCall` of `x/evm/types`, which is not in `grpc_query.go`.
Spec 4.4 (steps 7 and 8) and 5: the entry point returns the output bytes or the
execution error; the writes it stages while executing are scoped to the invocation
and discarded on return, never flushed. Here the interpreter `k.evm` runs on the
store and hands back a working copy; the working copy is dropped. -/
def StateTransition.StaticCall (k : Keeper σ) (st : StateTransition) (ctx : sdk.Context)
    (config : ChainConfig) : Q σ (Bytes × Option Error) := fun s =>
  ⟨(k.evm ctx st config s).1, [Call.StaticCall st], s⟩

/-! ## The endpoints of `grpc_query.go` -/

/-- Method `Keeper.Account` (Query/Account). -/
def Keeper.Account (L : Lib) (k : Keeper σ) (c : context.Context)
    (req : Option QueryAccountRequest) : Q σ (Ret QueryAccountResponse) := do
  metrics.ReportFuncCall k.svcTags
  let doneFn ← metrics.ReportFuncTiming k.svcTags
  defer doneFn do
    match req with
    | none => do
      metrics.ReportFuncError k.svcTags
      pure (none, some (status.Error codes.InvalidArgument "empty request"))
    | some req =>
      if L.IsZeroAddress req.Address then do
        metrics.ReportFuncError k.svcTags
        pure (none, some (status.Error codes.InvalidArgument L.ErrZeroAddress.Error))
      else do
        let ctx := sdk.UnwrapSDKContext c
        let so ← k.GetOrNewStateObject ctx (L.HexToAddress req.Address)
        match L.MarshalBigInt so.Balance with
        | (_, some err) => do
          metrics.ReportFuncError k.svcTags
          pure (none, some err)
        | (balance, none) =>
          pure (some { Balance := balance, CodeHash := so.CodeHash, Nonce := so.Nonce }, none)

/-- Method `Keeper.CosmosAccount` (Query/CosmosAccount). -/
def Keeper.CosmosAccount (L : Lib) (k : Keeper σ) (c : context.Context)
    (req : Option QueryCosmosAccountRequest) : Q σ (Ret QueryCosmosAccountResponse) := do
  metrics.ReportFuncCall k.svcTags
  let doneFn ← metrics.ReportFuncTiming k.svcTags
  defer doneFn do
    match req with
    | none => do
      metrics.ReportFuncError k.svcTags
      pure (none, some (status.Error codes.InvalidArgument "empty request"))
    | some req =>
      if L.IsZeroAddress req.Address then do
        metrics.ReportFuncError k.svcTags
        pure (none, some (status.Error codes.InvalidArgument L.ErrZeroAddress.Error))
      else do
        let ctx := sdk.UnwrapSDKContext c
        let ethStr := req.Address
        let ethAddr := L.FromHex ethStr
        let ethToCosmosAddr := L.AccAddressString ethAddr
        let cosmosToEthAddr := (L.AccAddressFromBech32 ethToCosmosAddr).1
        let acc ← k.GetAccount ctx cosmosToEthAddr
        let res : QueryCosmosAccountResponse :=
          { CosmosAddress := L.AccAddressString cosmosToEthAddr }
        match acc with
        | some acc =>
          pure (some { res with Sequence := acc.Sequence, AccountNumber := acc.AccountNumber },
                none)
        | none => pure (some res, none)

/-- Method `Keeper.Balance` (Query/Balance). -/
def Keeper.Balance (L : Lib) (k : Keeper σ) (c : context.Context)
    (req : Option QueryBalanceRequest) : Q σ (Ret QueryBalanceResponse) := do
  metrics.ReportFuncCall k.svcTags
  let doneFn ← metrics.ReportFuncTiming k.svcTags
  defer doneFn do
    match req with
    | none => do
      metrics.ReportFuncError k.svcTags
      pure (none, some (status.Error codes.InvalidArgument "empty request"))
    | some req =>
      if L.IsZeroAddress req.Address then do
        metrics.ReportFuncError k.svcTags
        pure (none, some (status.Error codes.InvalidArgument L.ErrZeroAddress.Error))
      else do
        let ctx := sdk.UnwrapSDKContext c
        let balanceInt ← k.GetBalance ctx (L.HexToAddress req.Address)
        match L.MarshalBigInt balanceInt with
        | (_, some _) => do
          metrics.ReportFuncError k.svcTags
          pure (none, some (status.Error codes.Internal "failed to marshal big.Int to string"))
        | (balance, none) =>
          pure (some { Balance := balance }, none)

/-- Method `Keeper.Storage` (Query/Storage). -/
def Keeper.Storage (L : Lib) (k : Keeper σ) (c : context.Context)
    (req : Option QueryStorageRequest) : Q σ (Ret QueryStorageResponse) := do
  metrics.ReportFuncCall k.svcTags
  let doneFn ← metrics.ReportFuncTiming k.svcTags
  defer doneFn do
    match req with
    | none => do
      metrics.ReportFuncError k.svcTags
      pure (none, some (status.Error codes.InvalidArgument "empty request"))
    | some req =>
      if L.IsZeroAddress req.Address then do
        metrics.ReportFuncError k.svcTags
        pure (none, some (status.Error codes.InvalidArgument L.ErrZeroAddress.Error))
      else do
        let ctx := sdk.UnwrapSDKContext c
        let address := L.HexToAddress req.Address
        let key := L.HexToHash req.Key
        let state ← k.GetState ctx address key
        pure (some { Value := L.HashString state }, none)

/-- Method `Keeper.Code` (Query/Code). -/
def Keeper.Code (L : Lib) (k : Keeper σ) (c : context.Context)
    (req : Option QueryCodeRequest) : Q σ (Ret QueryCodeResponse) := do
  metrics.ReportFuncCall k.svcTags
  let doneFn ← metrics.ReportFuncTiming k.svcTags
  defer doneFn do
    match req with
    | none => do
      metrics.ReportFuncError k.svcTags
      pure (none, some (status.Error codes.InvalidArgument "empty request"))
    | some req =>
      if L.IsZeroAddress req.Address then do
        metrics.ReportFuncError k.svcTags
        pure (none, some (status.Error codes.InvalidArgument L.ErrZeroAddress.Error))
      else do
        let ctx := sdk.UnwrapSDKContext c
        let address := L.HexToAddress req.Address
        let code ← k.GetCode ctx address
        pure (some { Code := code }, none)

/-- Method `Keeper.TxLogs` (Query/TxLogs). -/
def Keeper.TxLogs (L : Lib) (k : Keeper σ) (c : context.Context)
    (req : Option QueryTxLogsRequest) : Q σ (Ret QueryTxLogsResponse) := do
  metrics.ReportFuncCall k.svcTags
  let doneFn ← metrics.ReportFuncTiming k.svcTags
  defer doneFn do
    match req with
    | none => do
      metrics.ReportFuncError k.svcTags
      pure (none, some (status.Error codes.InvalidArgument "empty request"))
    | some req =>
      if L.IsEmptyHash req.Hash then do
        metrics.ReportFuncError k.svcTags
        pure (none, some (status.Error codes.InvalidArgument L.ErrEmptyHash.Error))
      else do
        let ctx := sdk.UnwrapSDKContext c
        let hash := L.HexToHash req.Hash
        let r ← k.GetLogs ctx hash
        match r with
        | (_, some err) => do
          metrics.ReportFuncError k.svcTags
          pure (none, some (status.Error codes.Internal err.Error))
        | (logs, none) =>
          pure (some { Logs := (L.NewTransactionLogsFromEth hash logs).Logs }, none)

/-- Method `Keeper.TxReceipt` (Query/TxReceipt). -/
def Keeper.TxReceipt (L : Lib) (k : Keeper σ) (c : context.Context)
    (req : Option QueryTxReceiptRequest) : Q σ (Ret QueryTxReceiptResponse) := do
  metrics.ReportFuncCall k.svcTags
  let doneFn ← metrics.ReportFuncTiming k.svcTags
  defer doneFn do
    match req with
    | none => do
      metrics.ReportFuncError k.svcTags
      pure (none, some (status.Error codes.InvalidArgument "empty request"))
    | some req =>
      if L.IsEmptyHash req.Hash then do
        metrics.ReportFuncError k.svcTags
        pure (none, some (status.Error codes.InvalidArgument L.ErrEmptyHash.Error))
      else do
        let ctx := sdk.UnwrapSDKContext c
        let hash := L.HexToHash req.Hash
        let (receipt, found) ← k.GetTxReceiptFromHash ctx hash
        if !found then do
          metrics.ReportFuncError k.svcTags
          pure (none, some (status.Error codes.NotFound L.ErrTxReceiptNotFound.Error))
        else
          pure (some { Receipt := receipt }, none)

/-- Method `Keeper.TxReceiptsByBlockHeight` (Query/TxReceiptsByBlockHeight). -/
def Keeper.TxReceiptsByBlockHeight (k : Keeper σ) (c : context.Context)
    (req : Option QueryTxReceiptsByBlockHeightRequest) :
    Q σ (Ret QueryTxReceiptsByBlockHeightResponse) := do
  metrics.ReportFuncCall k.svcTags
  let doneFn ← metrics.ReportFuncTiming k.svcTags
  defer doneFn do
    match req with
    | none => do
      metrics.ReportFuncError k.svcTags
      pure (none, some (status.Error codes.InvalidArgument "empty request"))
    | some req => do
      let ctx := sdk.UnwrapSDKContext c
      let receipts ← k.GetTxReceiptsByBlockHeight ctx req.Height
      pure (some { Receipts := receipts }, none)

/-- Method `Keeper.TxReceiptsByBlockHash` (Query/TxReceiptsByBlockHash). -/
def Keeper.TxReceiptsByBlockHash (L : Lib) (k : Keeper σ) (c : context.Context)
    (req : Option QueryTxReceiptsByBlockHashRequest) :
    Q σ (Ret QueryTxReceiptsByBlockHashResponse) := do
  metrics.ReportFuncCall k.svcTags
  let doneFn ← metrics.ReportFuncTiming k.svcTags
  defer doneFn do
    match req with
    | none => do
      metrics.ReportFuncError k.svcTags
      pure (none, some (status.Error codes.InvalidArgument "empty request"))
    | some req =>
      if L.IsEmptyHash req.Hash then do
        metrics.ReportFuncError k.svcTags
        pure (none, some (status.Error codes.InvalidArgument L.ErrEmptyHash.Error))
      else do
        let ctx := sdk.UnwrapSDKContext c
        let hash := L.HexToHash req.Hash
        let receipts ← k.GetTxReceiptsByBlockHash ctx hash
        pure (some { Receipts := receipts }, none)

/-- Method `Keeper.BlockLogs` (Query/BlockLogs). -/
def Keeper.BlockLogs (L : Lib) (k : Keeper σ) (c : context.Context)
    (req : Option QueryBlockLogsRequest) : Q σ (Ret QueryBlockLogsResponse) := do
  metrics.ReportFuncCall k.svcTags
  let doneFn ← metrics.ReportFuncTiming k.svcTags
  defer doneFn do
    match req with
    | none => do
      metrics.ReportFuncError k.svcTags
      pure (none, some (status.Error codes.InvalidArgument "empty request"))
    | some req =>
      if L.IsEmptyHash req.Hash then do
        metrics.ReportFuncError k.svcTags
        pure (none, some (status.Error codes.InvalidArgument L.ErrEmptyHash.Error))
      else do
        let ctx := sdk.UnwrapSDKContext c
        let txLogs ← k.GetAllTxLogs ctx
        pure (some { TxLogs := txLogs }, none)

/-- Method `Keeper.BlockBloom` (Query/BlockBloom). -/
def Keeper.BlockBloom (L : Lib) (k : Keeper σ) (c : context.Context)
    (req : Option QueryBlockBloomRequest) : Q σ (Ret QueryBlockBloomResponse) := do
  metrics.ReportFuncCall k.svcTags
  let doneFn ← metrics.ReportFuncTiming k.svcTags
  defer doneFn do
    match req with
    | none => do
      metrics.ReportFuncError k.svcTags
      pure (none, some (status.Error codes.InvalidArgument "empty request"))
    | some req => do
      let ctx := sdk.UnwrapSDKContext c
      let height := if req.Height > 0 then req.Height else ctx.BlockHeight
      let (bloom, found) ← k.GetBlockBloom ctx height
      if !found then do
        metrics.ReportFuncError k.svcTags
        pure (none, some (status.Error codes.NotFound L.ErrBloomNotFound.Error))
      else
        pure (some { Bloom := bloom.Bytes }, none)

/-- Method `Keeper.Params` (Query/Params). -/
def Keeper.Params (k : Keeper σ) (c : context.Context)
    (req : Option QueryParamsRequest) : Q σ (Ret QueryParamsResponse) := do
  metrics.ReportFuncCall k.svcTags
  let doneFn ← metrics.ReportFuncTiming k.svcTags
  defer doneFn do
    match req with
    | none => do
      metrics.ReportFuncError k.svcTags
      pure (none, some (status.Error codes.InvalidArgument "empty request"))
    | some _ => do
      let ctx := sdk.UnwrapSDKContext c
      let params ← k.GetParams ctx
      pure (some { Params := params }, none)

/-- Method `Keeper.StaticCall` (Query/StaticCall). The local `recipient` is a pointer
that stays nil when the request carries no address; `*recipient` is then a nil
pointer dereference. The test `len(req.Address) > 0` is on the length of the string. -/
def Keeper.StaticCall (L : Lib) (k : Keeper σ) (c : context.Context)
    (req : Option QueryStaticCallRequest) : Q σ (Outcome QueryStaticCallResponse) :=
  match req with
  | none => pure (.returned none (some (status.Error codes.InvalidArgument "empty request")))
  | some req =>
    let ctx := sdk.UnwrapSDKContext c
    match L.ParseChainID ctx.ChainID with
    | (_, some err) => pure (.returned none (some err))
    | (chainIDEpoch, none) =>
      let txHash := L.TxHash ctx.TxBytes
      let ethHash := L.BytesToHash txHash
      let recipient : Option ethcmn.Address :=
        if req.Address.length > 0 then some (L.HexToAddress req.Address) else none
      match recipient with
      | none => pure .nilPointerDereference
      | some derefRecipient => do
        let so ← k.GetOrNewStateObject ctx derefRecipient
        let sender := L.HexToAddress "0xaDd00275E3d9d213654Ce5223f0FADE8b106b707"
        let st : StateTransition :=
          { AccountNonce := so.Nonce
            Price := 0
            GasLimit := 100000000
            Recipient := recipient
            Amount := 0
            Payload := req.Input
            Csdb := ctx
            ChainID := chainIDEpoch
            TxHash := some ethHash
            Sender := sender
            Simulate := ctx.IsCheckTx }
        let (config, found) ← k.GetChainConfig ctx
        if !found then
          pure (.returned none (some L.ErrChainConfigNotFound))
        else do
          let r ← st.StaticCall k ctx config
          match r with
          | (_, some err) => pure (.returned none (some err))
          | (ret, none) => pure (.returned (some { Data := ret }) none)

/-! ## A finite store and a concrete library, for the scenarios -/

/-- The UTF-8 bytes of one character, as a Go string stores it. -/
def utf8Char (ch : Char) : Bytes :=
  let n := ch.toNat
  if n < 0x80 then [n]
  else if n < 0x800 then [0xc0 + n / 64, 0x80 + n % 64]
  else if n < 0x10000 then [0xe0 + n / 4096, 0x80 + n / 64 % 64, 0x80 + n % 64]
  else [0xf0 + n / 262144, 0x80 + n / 4096 % 64, 0x80 + n / 64 % 64, 0x80 + n % 64]

/-- The bytes of a Go string (`[]byte(s)`); Go `len(s)` is their number. -/
def stringBytes (s : String) : Bytes := s.toList.flatMap utf8Char

/-- Value of the byte of a hexadecimal digit. -/
def hexDigit (b : Nat) : Option Nat :=
  if b ≥ 48 ∧ b ≤ 57 then some (b - 48)
  else if b ≥ 97 ∧ b ≤ 102 then some (b - 87)
  else if b ≥ 65 ∧ b ≤ 70 then some (b - 55)
  else none

/-- Function `Hex2Bytes` of go-ethereum (`hex.DecodeString` with its error dropped):
two digit bytes per decoded byte; decoding stops at the first byte that is not a
digit and keeps what was decoded before it. -/
def decodeHex : Bytes → Bytes
  | hi :: lo :: rest =>
    match hexDigit hi, hexDigit lo with
    | some h, some l => (16 * h + l) :: decodeHex rest
    | _, _ => []
  | _ => []

/-- Function `ethcmn.FromHex` of go-ethereum, on the bytes of the string: a leading
`0x` or `0X` is dropped, and when the number of remaining bytes is odd a `0` digit
is put in front. -/
def FromHex (s : String) : Bytes :=
  let bs := match stringBytes s with
    | 48 :: 120 :: rest => rest
    | 48 :: 88 :: rest => rest
    | bs => bs
  decodeHex (if bs.length % 2 = 1 then 48 :: bs else bs)

/-- Go `SetBytes` on a fixed array of `n` bytes: the last `n` bytes, padded on the left. -/
def setBytes (n : Nat) (b : Bytes) : Bytes :=
  List.replicate (n - b.length) 0 ++ b.drop (b.length - n)

/-- Function `ethcmn.HexToAddress` of go-ethereum. -/
def HexToAddress (s : String) : ethcmn.Address := ⟨setBytes 20 (FromHex s)⟩

/-- Function `ethcmn.BytesToHash` of go-ethereum. -/
def BytesToHash (b : Bytes) : ethcmn.Hash := ⟨setBytes 32 b⟩

/-- Function `ethcmn.HexToHash` of go-ethereum. -/
def HexToHash (s : String) : ethcmn.Hash := BytesToHash (FromHex s)

/-- Modelled from the spec: `types.IsZeroAddress` (x/evm/types, not in
`grpc_query.go`); spec 3: the all-zero address is the invalid one. -/
def IsZeroAddress (address : String) : Bool :=
  (HexToAddress address).bytes == List.replicate 20 0

/-- Modelled from the spec: `types.IsEmptyHash` (x/evm/types, not in
`grpc_query.go`); spec 3: the empty/zero hash is the invalid one. -/
def IsEmptyHash (hash : String) : Bool :=
  (HexToHash hash).bytes == List.replicate 32 0

/-- Modelled from the spec: `ethermint.ParseChainID` (types, not in `grpc_query.go`);
spec 4.4 step 1: the chain identifier is derived from the identifier string, with a
parse error if it is malformed. The string is a lower-case name, a dash and a
decimal epoch without leading zero. -/
def ParseChainID (chainID : String) : Int × Option Error :=
  match chainID.toList.span (fun ch => ch != '-') with
  | (name, '-' :: epoch) =>
    if name ≠ [] ∧ name.all Char.isLower ∧ epoch ≠ [] ∧ epoch.all Char.isDigit
        ∧ epoch.head? ≠ some '0' then
      (Int.ofNat (epoch.foldl (fun n ch => 10 * n + (ch.toNat - 48)) 0), none)
    else (0, some (Error.plain "invalid chain-id"))
  | _ => (0, some (Error.plain "invalid chain-id"))

/-- A concrete library. Balances are marshalled as decimal text, which never fails;
the bech32 coding, the transaction hash and the text form of hashes and logs are
simple stand-ins, on which no statement depends. -/
def stdLib : Lib where
  IsZeroAddress := IsZeroAddress
  IsEmptyHash := IsEmptyHash
  ErrZeroAddress := Error.plain "invalid zero address"
  ErrEmptyHash := Error.plain "empty hash"
  ErrTxReceiptNotFound := Error.plain "transaction receipt not found"
  ErrBloomNotFound := Error.plain "block bloom not found"
  ErrChainConfigNotFound := Error.plain "chain configuration not found"
  HexToAddress := HexToAddress
  HexToHash := HexToHash
  BytesToHash := BytesToHash
  FromHex := FromHex
  HashString := fun h => toString h.bytes
  MarshalBigInt := fun i => (toString i, none)
  ParseChainID := ParseChainID
  AccAddressString := fun b => toString b
  AccAddressFromBech32 := fun t => ((t.toList.filter Char.isDigit).map (fun ch => ch.toNat - 48), none)
  TxHash := fun b => b
  NewTransactionLogsFromEth := fun h logs =>
    { Hash := toString h.bytes
      Logs := logs.map (fun l =>
        { Address := toString l.Address.bytes
          Topics := l.Topics.map (fun t => toString t.bytes)
          Data := l.Data }) }

/-- The hash of the empty code (Keccak-256 of the empty byte string). -/
def emptyCodeHash : Bytes :=
  [0xc5, 0xd2, 0x46, 0x01, 0x86, 0xf7, 0x23, 0x3c, 0x92, 0x7e, 0x7d, 0xb2, 0xdc, 0xc7, 0x03, 0xc0,
   0xe5, 0x00, 0xb6, 0x53, 0xca, 0x82, 0x27, 0x3b, 0x7b, 0xfa, 0xd8, 0x04, 0x5d, 0x85, 0xa4, 0x70]

/-- A finite committed state: what the store and the indexes hold. -/
structure Store where
  accounts : List (ethcmn.Address × StateObject) := []
  code : List (ethcmn.Address × Bytes) := []
  storage : List ((ethcmn.Address × ethcmn.Hash) × ethcmn.Hash) := []
  ledger : List (Bytes × AccountI) := []
  receipts : List (ethcmn.Hash × TxReceipt) := []
  txLogs : List (ethcmn.Hash × List EthLog) := []
  blooms : List (Int × Bloom) := []
  params : Params := ⟨[]⟩
  chainConfig : Option ChainConfig := none
  deriving DecidableEq, Repr

/-- Modelled from the spec: the keeper methods (x/evm/keeper and x/evm/types, not in
`grpc_query.go`) over a finite store. Spec 4.2: get-or-create never fails and an
absent account yields a zero-valued object; balance, code and storage of an absent
entry are zero or empty. Spec 4.3: receipt and bloom lookups report whether an
entry was found, sequences keep their recorded order. The interpreter stages a
storage write at the recipient and returns the payload; an empty payload reverts. -/
def storeKeeper : Keeper Store where
  svcTags := [("svc", "evm_query")]
  getOrNewStateObject := fun _ a s =>
    (s.accounts.lookup a).getD { Balance := 0, CodeHash := emptyCodeHash, Nonce := 0 }
  getBalance := fun _ a s => ((s.accounts.lookup a).map (fun so => so.Balance)).getD 0
  getState := fun _ a key s => (s.storage.lookup (a, key)).getD ⟨List.replicate 32 0⟩
  getCode := fun _ a s => (s.code.lookup a).getD []
  getAccount := fun _ a s => s.ledger.lookup a
  getLogs := fun _ h s => ((s.txLogs.lookup h).getD [], none)
  getTxReceiptFromHash := fun _ h s =>
    match s.receipts.lookup h with
    | some r => (some r, true)
    | none => (none, false)
  getTxReceiptsByBlockHeight := fun _ height s =>
    (s.receipts.map Prod.snd).filter (fun r => (r.BlockHeight : Int) == height)
  getTxReceiptsByBlockHash := fun _ _ s => s.receipts.map Prod.snd
  getAllTxLogs := fun _ s => s.txLogs.map (fun p => stdLib.NewTransactionLogsFromEth p.1 p.2)
  getBlockBloom := fun _ height s =>
    match s.blooms.lookup height with
    | some b => (b, true)
    | none => (⟨[]⟩, false)
  getParams := fun _ s => s.params
  getChainConfig := fun _ s =>
    match s.chainConfig with
    | some cfg => (cfg, true)
    | none => (⟨[]⟩, false)
  evm := fun _ st _ s =>
    match st.Recipient, st.Payload with
    | _, [] => (([], some (Error.plain "execution reverted")), s)
    | none, _ => ((st.Payload, none), s)
    | some a, _ =>
      ((st.Payload, none),
       { s with storage := ((a, ⟨List.replicate 32 0⟩), BytesToHash st.Payload) :: s.storage })

/-- An address used in the scenarios. -/
def addrA : String := "0x00000000000000000000000000000000000000a1"

/-- The all-zero address. -/
def zeroAddr : String := "0x0000000000000000000000000000000000000000"

/-- A hash used in the scenarios. -/
def hashDead : String := "0xdead"

/-- A second, different hash. -/
def hashBeef : String := "0xbeef"

/-- A store in which account `addrA` has balance 100, nonce 2 and empty code, one
receipt and its logs are recorded under `hashBeef`, and blocks 7 and 3 have a bloom. -/
def store1 : Store :=
  { accounts := [(HexToAddress addrA, { Balance := 100, CodeHash := emptyCodeHash, Nonce := 2 })]
    receipts := [(HexToHash hashBeef, { Hash := FromHex hashBeef, BlockHeight := 7, Result := [1] })]
    txLogs := [(HexToHash hashBeef, [{ Address := HexToAddress addrA, Topics := [], Data := [9] }])]
    blooms := [(7, ⟨[1, 2, 3]⟩), (3, ⟨[4]⟩)]
    chainConfig := some ⟨[1]⟩ }

/-- A request context at block 7 of chain `ethermint-1`. -/
def ctx1 : context.Context :=
  ⟨{ BlockHeight := 7, ChainID := "ethermint-1", TxBytes := [], IsCheckTx := true }⟩

/-! ## Vocabulary of the statements -/

/-- The run returned no response together with an error whose gRPC code is `code`. -/
def Run.rejectedWith {α : Type} (r : Run σ (Ret α)) (code : codes) : Prop :=
  r.out.1 = none ∧ r.out.2.isSome = true ∧ status.Code r.out.2 = code

/-- The run made no collaborator call of the kind `p`. -/
def Run.madeNo {α : Type} (r : Run σ α) (p : Call → Bool) : Prop :=
  ∀ x ∈ r.calls, p x = false

/-! ## Absent requests, zero addresses, empty hashes -/

/-- C3: on an absent (nil) request each of the thirteen endpoints returns no response
and the error `status.Error(codes.InvalidArgument, "empty request")`, whose code is
`InvalidArgument`, for every library, keeper, context and store. -/
theorem absent_request_is_invalid_argument (L : Lib) (k : Keeper σ) (c : context.Context)
    (s : σ) :
    (k.Account L c none s).rejectedWith codes.InvalidArgument
    ∧ (k.CosmosAccount L c none s).rejectedWith codes.InvalidArgument
    ∧ (k.Balance L c none s).rejectedWith codes.InvalidArgument
    ∧ (k.Storage L c none s).rejectedWith codes.InvalidArgument
    ∧ (k.Code L c none s).rejectedWith codes.InvalidArgument
    ∧ (k.TxLogs L c none s).rejectedWith codes.InvalidArgument
    ∧ (k.TxReceipt L c none s).rejectedWith codes.InvalidArgument
    ∧ (k.TxReceiptsByBlockHeight c none s).rejectedWith codes.InvalidArgument
    ∧ (k.TxReceiptsByBlockHash L c none s).rejectedWith codes.InvalidArgument
    ∧ (k.BlockLogs L c none s).rejectedWith codes.InvalidArgument
    ∧ (k.BlockBloom L c none s).rejectedWith codes.InvalidArgument
    ∧ (k.Params c none s).rejectedWith codes.InvalidArgument
    ∧ (∃ e, (k.StaticCall L c none s).out = Outcome.returned none (some e)
        ∧ status.Code (some e) = codes.InvalidArgument) := by
  refine ⟨?_, ?_, ?_, ?_, ?_, ?_, ?_, ?_, ?_, ?_, ?_, ?_, ?_⟩
  · exact ⟨rfl, rfl, rfl⟩
  · exact ⟨rfl, rfl, rfl⟩
  · exact ⟨rfl, rfl, rfl⟩
  · exact ⟨rfl, rfl, rfl⟩
  · exact ⟨rfl, rfl, rfl⟩
  · exact ⟨rfl, rfl, rfl⟩
  · exact ⟨rfl, rfl, rfl⟩
  · exact ⟨rfl, rfl, rfl⟩
  · exact ⟨rfl, rfl, rfl⟩
  · exact ⟨rfl, rfl, rfl⟩
  · exact ⟨rfl, rfl, rfl⟩
  · exact ⟨rfl, rfl, rfl⟩
  · exact ⟨_, rfl, rfl⟩

/-- C1: when `IsZeroAddress` holds of the request address, each of Account,
CosmosAccount, Balance, Storage and Code returns no response and an error of code
`InvalidArgument`, and its run contains no read of the state store or of the account
keeper (no GetOrNewStateObject, GetBalance, GetState, GetCode or GetAccount call). -/
theorem zero_address_rejected_before_any_state_read (L : Lib) (k : Keeper σ)
    (c : context.Context) (s : σ) (address key : String)
    (hzero : L.IsZeroAddress address = true) :
    ((k.Account L c (some ⟨address⟩) s).rejectedWith codes.InvalidArgument
      ∧ (k.Account L c (some ⟨address⟩) s).madeNo Call.isStateRead)
    ∧ ((k.CosmosAccount L c (some ⟨address⟩) s).rejectedWith codes.InvalidArgument
      ∧ (k.CosmosAccount L c (some ⟨address⟩) s).madeNo Call.isStateRead)
    ∧ ((k.Balance L c (some ⟨address⟩) s).rejectedWith codes.InvalidArgument
      ∧ (k.Balance L c (some ⟨address⟩) s).madeNo Call.isStateRead)
    ∧ ((k.Storage L c (some ⟨address, key⟩) s).rejectedWith codes.InvalidArgument
      ∧ (k.Storage L c (some ⟨address, key⟩) s).madeNo Call.isStateRead)
    ∧ ((k.Code L c (some ⟨address⟩) s).rejectedWith codes.InvalidArgument
      ∧ (k.Code L c (some ⟨address⟩) s).madeNo Call.isStateRead) := by
  refine ⟨?_, ?_, ?_, ?_, ?_⟩
  · simp [Run.rejectedWith, Run.madeNo, Keeper.Account, hzero, defer, bind, pure, Q.bind,
      Q.pure, metrics.ReportFuncCall, metrics.ReportFuncTiming, metrics.ReportFuncError,
      Q.emit, status.Code, status.Error, Call.isStateRead]
  · simp [Run.rejectedWith, Run.madeNo, Keeper.CosmosAccount, hzero, defer, bind, pure, Q.bind,
      Q.pure, metrics.ReportFuncCall, metrics.ReportFuncTiming, metrics.ReportFuncError,
      Q.emit, status.Code, status.Error, Call.isStateRead]
  · simp [Run.rejectedWith, Run.madeNo, Keeper.Balance, hzero, defer, bind, pure, Q.bind,
      Q.pure, metrics.ReportFuncCall, metrics.ReportFuncTiming, metrics.ReportFuncError,
      Q.emit, status.Code, status.Error, Call.isStateRead]
  · simp [Run.rejectedWith, Run.madeNo, Keeper.Storage, hzero, defer, bind, pure, Q.bind,
      Q.pure, metrics.ReportFuncCall, metrics.ReportFuncTiming, metrics.ReportFuncError,
      Q.emit, status.Code, status.Error, Call.isStateRead]
  · simp [Run.rejectedWith, Run.madeNo, Keeper.Code, hzero, defer, bind, pure, Q.bind,
      Q.pure, metrics.ReportFuncCall, metrics.ReportFuncTiming, metrics.ReportFuncError,
      Q.emit, status.Code, status.Error, Call.isStateRead]

/-- Witness of C1 on the finite store, at the all-zero address. -/
theorem zero_address_rejected_before_any_state_read_witness :
    IsZeroAddress zeroAddr = true
    ∧ (storeKeeper.Account stdLib ctx1 (some ⟨zeroAddr⟩) store1).rejectedWith
        codes.InvalidArgument
    ∧ (storeKeeper.Account stdLib ctx1 (some ⟨zeroAddr⟩) store1).madeNo Call.isStateRead
    ∧ (storeKeeper.Storage stdLib ctx1 (some ⟨zeroAddr, "0x01"⟩) store1).rejectedWith
        codes.InvalidArgument :=
  have h := zero_address_rejected_before_any_state_read stdLib storeKeeper ctx1 store1
    zeroAddr "0x01" (by decide)
  ⟨by decide, h.1.1, h.1.2, h.2.2.2.1.1⟩

/-- C2: when `IsEmptyHash` holds of the request hash, each of TxLogs, TxReceipt,
TxReceiptsByBlockHash and BlockLogs returns no response and an error of code
`InvalidArgument`, and its run contains no lookup in the receipt, log or bloom index. -/
theorem empty_hash_rejected_before_any_index_lookup (L : Lib) (k : Keeper σ)
    (c : context.Context) (s : σ) (hash : String) (hempty : L.IsEmptyHash hash = true) :
    ((k.TxLogs L c (some ⟨hash⟩) s).rejectedWith codes.InvalidArgument
      ∧ (k.TxLogs L c (some ⟨hash⟩) s).madeNo Call.isIndexLookup)
    ∧ ((k.TxReceipt L c (some ⟨hash⟩) s).rejectedWith codes.InvalidArgument
      ∧ (k.TxReceipt L c (some ⟨hash⟩) s).madeNo Call.isIndexLookup)
    ∧ ((k.TxReceiptsByBlockHash L c (some ⟨hash⟩) s).rejectedWith codes.InvalidArgument
      ∧ (k.TxReceiptsByBlockHash L c (some ⟨hash⟩) s).madeNo Call.isIndexLookup)
    ∧ ((k.BlockLogs L c (some ⟨hash⟩) s).rejectedWith codes.InvalidArgument
      ∧ (k.BlockLogs L c (some ⟨hash⟩) s).madeNo Call.isIndexLookup) := by
  refine ⟨?_, ?_, ?_, ?_⟩
  · simp [Run.rejectedWith, Run.madeNo, Keeper.TxLogs, hempty, defer, bind, pure, Q.bind,
      Q.pure, metrics.ReportFuncCall, metrics.ReportFuncTiming, metrics.ReportFuncError,
      Q.emit, status.Code, status.Error, Call.isIndexLookup]
  · simp [Run.rejectedWith, Run.madeNo, Keeper.TxReceipt, hempty, defer, bind, pure, Q.bind,
      Q.pure, metrics.ReportFuncCall, metrics.ReportFuncTiming, metrics.ReportFuncError,
      Q.emit, status.Code, status.Error, Call.isIndexLookup]
  · simp [Run.rejectedWith, Run.madeNo, Keeper.TxReceiptsByBlockHash, hempty, defer, bind,
      pure, Q.bind, Q.pure, metrics.ReportFuncCall, metrics.ReportFuncTiming,
      metrics.ReportFuncError, Q.emit, status.Code, status.Error, Call.isIndexLookup]
  · simp [Run.rejectedWith, Run.madeNo, Keeper.BlockLogs, hempty, defer, bind, pure, Q.bind,
      Q.pure, metrics.ReportFuncCall, metrics.ReportFuncTiming, metrics.ReportFuncError,
      Q.emit, status.Code, status.Error, Call.isIndexLookup]

/-- Witness of C2 on the finite store, at the empty hash string. -/
theorem empty_hash_rejected_before_any_index_lookup_witness :
    IsEmptyHash "" = true
    ∧ (storeKeeper.TxReceipt stdLib ctx1 (some ⟨""⟩) store1).rejectedWith codes.InvalidArgument
    ∧ (storeKeeper.BlockLogs stdLib ctx1 (some ⟨""⟩) store1).madeNo Call.isIndexLookup :=
  have h := empty_hash_rejected_before_any_index_lookup stdLib storeKeeper ctx1 store1 ""
    (by decide)
  ⟨by decide, h.2.1.1, h.2.2.2.2⟩

/-! ## Receipts, blooms and block logs -/

/-- C4: for a present request whose hash is not empty, TxReceipt returns an error of
code `NotFound` exactly when the receipt index reports no receipt under the hash;
in that case there is no response at all, and when a receipt is recorded the call
returns that receipt and no error. -/
theorem TxReceipt_not_found_iff_not_recorded (L : Lib) (k : Keeper σ) (c : context.Context)
    (s : σ) (hash : String) (hne : L.IsEmptyHash hash = false) :
    (status.Code (k.TxReceipt L c (some ⟨hash⟩) s).out.2 = codes.NotFound
      ↔ (k.getTxReceiptFromHash (sdk.UnwrapSDKContext c) (L.HexToHash hash) s).2 = false)
    ∧ ((k.getTxReceiptFromHash (sdk.UnwrapSDKContext c) (L.HexToHash hash) s).2 = false →
        (k.TxReceipt L c (some ⟨hash⟩) s).rejectedWith codes.NotFound)
    ∧ ((k.getTxReceiptFromHash (sdk.UnwrapSDKContext c) (L.HexToHash hash) s).2 = true →
        (k.TxReceipt L c (some ⟨hash⟩) s).out
          = (some { Receipt :=
              (k.getTxReceiptFromHash (sdk.UnwrapSDKContext c) (L.HexToHash hash) s).1 },
             none)) := by
  cases hf : (k.getTxReceiptFromHash (sdk.UnwrapSDKContext c) (L.HexToHash hash) s).2 <;>
    simp [Run.rejectedWith, Keeper.TxReceipt, hne, hf, defer, bind, pure, Q.bind, Q.pure,
      metrics.ReportFuncCall, metrics.ReportFuncTiming, metrics.ReportFuncError, Q.emit,
      Q.read, Keeper.GetTxReceiptFromHash, status.Code, status.Error]

/-- Witness of C4 on the finite store: nothing is recorded under `0xdead`, and the
call is rejected with `NotFound`; the receipt recorded under `0xbeef` is returned. -/
theorem TxReceipt_not_found_iff_not_recorded_witness :
    IsEmptyHash hashDead = false
    ∧ store1.receipts.lookup (HexToHash hashDead) = none
    ∧ (storeKeeper.TxReceipt stdLib ctx1 (some ⟨hashDead⟩) store1).rejectedWith codes.NotFound
    ∧ (storeKeeper.TxReceipt stdLib ctx1 (some ⟨hashBeef⟩) store1).out
        = (some { Receipt := some { Hash := [0xbe, 0xef], BlockHeight := 7, Result := [1] } },
           none) :=
  ⟨by decide, by decide,
   (TxReceipt_not_found_iff_not_recorded stdLib storeKeeper ctx1 store1 hashDead
      (by decide)).2.1 (by decide),
   (TxReceipt_not_found_iff_not_recorded stdLib storeKeeper ctx1 store1 hashBeef
      (by decide)).2.2 (by decide)⟩

/-- C5: for a present BlockBloom request there is one height at which the bloom is
looked up: the current block height of the context when the request height is 0, the
request height when it is positive. The call returns the bytes of the bloom found at
that height, and an error of code `NotFound` with no response when none is found. -/
theorem BlockBloom_height_and_result (L : Lib) (k : Keeper σ) (c : context.Context) (s : σ)
    (req : QueryBlockBloomRequest) :
    ∃ height : Int,
      (req.Height = 0 → height = (sdk.UnwrapSDKContext c).BlockHeight)
      ∧ (0 < req.Height → height = req.Height)
      ∧ (∀ h, Call.GetBlockBloom h ∈ (k.BlockBloom L c (some req) s).calls ↔ h = height)
      ∧ ((k.getBlockBloom (sdk.UnwrapSDKContext c) height s).2 = true →
          (k.BlockBloom L c (some req) s).out
            = (some { Bloom := (k.getBlockBloom (sdk.UnwrapSDKContext c) height s).1.Bytes },
               none))
      ∧ ((k.getBlockBloom (sdk.UnwrapSDKContext c) height s).2 = false →
          (k.BlockBloom L c (some req) s).rejectedWith codes.NotFound) := by
  refine ⟨if req.Height > 0 then req.Height else (sdk.UnwrapSDKContext c).BlockHeight,
    ?_, ?_, ?_, ?_, ?_⟩
  · intro h0
    simp [h0]
  · intro hpos
    simp [hpos]
  · intro h
    cases hf : (k.getBlockBloom (sdk.UnwrapSDKContext c)
        (if req.Height > 0 then req.Height else (sdk.UnwrapSDKContext c).BlockHeight) s).2 <;>
      simp [Keeper.BlockBloom, hf, defer, bind, pure, Q.bind, Q.pure,
        metrics.ReportFuncCall, metrics.ReportFuncTiming, metrics.ReportFuncError, Q.emit,
        Q.read, Keeper.GetBlockBloom]
  · intro hf
    simp [Keeper.BlockBloom, hf, defer, bind, pure, Q.bind, Q.pure,
      metrics.ReportFuncCall, metrics.ReportFuncTiming, metrics.ReportFuncError, Q.emit,
      Q.read, Keeper.GetBlockBloom]
  · intro hf
    simp [Run.rejectedWith, Keeper.BlockBloom, hf, defer, bind, pure, Q.bind, Q.pure,
      metrics.ReportFuncCall, metrics.ReportFuncTiming, metrics.ReportFuncError, Q.emit,
      Q.read, Keeper.GetBlockBloom, status.Code, status.Error]

/-- Scenarios of C5 on the finite store, under a context at block 7: height 0 reads the
bloom of block 7, height 3 the bloom of block 3, and height 9, where no bloom is
recorded, is rejected with `NotFound`. -/
theorem BlockBloom_height_and_result_scenarios :
    (storeKeeper.BlockBloom stdLib ctx1 (some ⟨0⟩) store1).out
      = (some { Bloom := [1, 2, 3] }, none)
    ∧ (storeKeeper.BlockBloom stdLib ctx1 (some ⟨3⟩) store1).out = (some { Bloom := [4] }, none)
    ∧ (storeKeeper.BlockBloom stdLib ctx1 (some ⟨9⟩) store1).rejectedWith codes.NotFound
    ∧ Call.GetBlockBloom 7 ∈ (storeKeeper.BlockBloom stdLib ctx1 (some ⟨0⟩) store1).calls :=
  ⟨by decide, by decide, ⟨by decide, by decide, by decide⟩, by decide⟩

/-- C9: for a present BlockLogs request whose hash is not empty, the response holds
the whole sequence of recorded transaction logs, in the order `GetAllTxLogs` gives
it, whatever the hash: two requests with non-empty hashes on the same state return
the same result. -/
theorem BlockLogs_returns_all_tx_logs (L : Lib) (k : Keeper σ) (c : context.Context) (s : σ)
    (hash1 hash2 : String) (h1 : L.IsEmptyHash hash1 = false)
    (h2 : L.IsEmptyHash hash2 = false) :
    (k.BlockLogs L c (some ⟨hash1⟩) s).out
      = (some { TxLogs := k.getAllTxLogs (sdk.UnwrapSDKContext c) s }, none)
    ∧ (k.BlockLogs L c (some ⟨hash1⟩) s).out = (k.BlockLogs L c (some ⟨hash2⟩) s).out := by
  simp [Keeper.BlockLogs, h1, h2, defer, bind, pure, Q.bind, Q.pure,
    metrics.ReportFuncCall, metrics.ReportFuncTiming, metrics.ReportFuncError, Q.emit,
    Q.read, Keeper.GetAllTxLogs]

/-- Witness of C9 on the finite store: the logs recorded under `0xbeef` come back
for the block hash `0xdead` too. -/
theorem BlockLogs_returns_all_tx_logs_witness :
    IsEmptyHash hashDead = false ∧ IsEmptyHash hashBeef = false ∧ hashDead ≠ hashBeef
    ∧ (storeKeeper.BlockLogs stdLib ctx1 (some ⟨hashDead⟩) store1).out
        = (storeKeeper.BlockLogs stdLib ctx1 (some ⟨hashBeef⟩) store1).out :=
  ⟨by decide, by decide, by decide,
   (BlockLogs_returns_all_tx_logs stdLib storeKeeper ctx1 store1 hashDead hashBeef
      (by decide) (by decide)).2⟩

/-! ## Account -/

/-- C10: for a present Account request with a non-zero address whose balance
serializes, Account returns, without error, the serialized balance, the code hash and
the nonce of the state object `GetOrNewStateObject` gives for the address. -/
theorem Account_returns_state_object (L : Lib) (k : Keeper σ) (c : context.Context) (s : σ)
    (address balance : String) (hnz : L.IsZeroAddress address = false)
    (hm : L.MarshalBigInt
        (k.getOrNewStateObject (sdk.UnwrapSDKContext c) (L.HexToAddress address) s).Balance
      = (balance, none)) :
    (k.Account L c (some ⟨address⟩) s).out
      = (some
          { Balance := balance
            CodeHash :=
              (k.getOrNewStateObject (sdk.UnwrapSDKContext c) (L.HexToAddress address) s).CodeHash
            Nonce :=
              (k.getOrNewStateObject (sdk.UnwrapSDKContext c) (L.HexToAddress address) s).Nonce },
         none) := by
  simp [Keeper.Account, hnz, hm, defer, bind, pure, Q.bind, Q.pure,
    metrics.ReportFuncCall, metrics.ReportFuncTiming, metrics.ReportFuncError, Q.emit,
    Q.read, Keeper.GetOrNewStateObject]

/-- Witness of C10 on the finite store, with balances marshalled as decimal text:
the account with balance 100, nonce 2 and empty code, and an address that was never
touched (the empty store), whose object is zero-valued. -/
theorem Account_returns_state_object_witness :
    IsZeroAddress addrA = false
    ∧ (storeKeeper.Account stdLib ctx1 (some ⟨addrA⟩) store1).out
        = (some { Balance := "100", CodeHash := emptyCodeHash, Nonce := 2 }, none)
    ∧ (storeKeeper.Account stdLib ctx1 (some ⟨addrA⟩) {}).out
        = (some { Balance := "0", CodeHash := emptyCodeHash, Nonce := 0 }, none) :=
  ⟨by decide,
   Account_returns_state_object stdLib storeKeeper ctx1 store1 addrA "100" (by decide)
     (by decide),
   Account_returns_state_object stdLib storeKeeper ctx1 {} addrA "0" (by decide) (by decide)⟩

/-! ## StaticCall -/

/-- C7: a present StaticCall request without recipient address, under a context whose
chain identifier parses, ends in a nil pointer dereference: the absent recipient is
dereferenced before any collaborator is called, and nothing is returned. -/
theorem StaticCall_dereferences_absent_recipient (L : Lib) (k : Keeper σ)
    (c : context.Context) (s : σ) (input : Bytes)
    (hparse : (L.ParseChainID (sdk.UnwrapSDKContext c).ChainID).2 = none) :
    (k.StaticCall L c (some ⟨"", input⟩) s).out = Outcome.nilPointerDereference
    ∧ (k.StaticCall L c (some ⟨"", input⟩) s).calls = [] := by
  cases hp : L.ParseChainID (sdk.UnwrapSDKContext c).ChainID with
  | mk chainIDEpoch err =>
    rw [hp] at hparse
    simp only at hparse
    subst hparse
    simp [Keeper.StaticCall, hp, pure, Q.pure]

/-- Witness of C7 on the finite store, for the chain identifier `ethermint-1`. -/
theorem StaticCall_dereferences_absent_recipient_witness :
    (ParseChainID "ethermint-1").2 = none
    ∧ (storeKeeper.StaticCall stdLib ctx1 (some ⟨"", [1]⟩) store1).out
        = Outcome.nilPointerDereference :=
  ⟨by decide,
   (StaticCall_dereferences_absent_recipient stdLib storeKeeper ctx1 store1 [1]
      (by decide)).1⟩

/-- The store a StaticCall leaves is the store it started on, however the call ends. -/
theorem StaticCall_store (L : Lib) (k : Keeper σ) (c : context.Context)
    (req : Option QueryStaticCallRequest) (s : σ) : (k.StaticCall L c req s).store = s := by
  cases req with
  | none => rfl
  | some req =>
    rcases hp : L.ParseChainID (sdk.UnwrapSDKContext c).ChainID with ⟨n, _ | err⟩
    · by_cases hl : req.Address.length > 0
      · rcases hc : k.getChainConfig (sdk.UnwrapSDKContext c) s with ⟨cfg, _ | _⟩
        · simp [Keeper.StaticCall, hp, hl, hc, bind, Q.bind, pure, Q.pure, Q.read,
            Keeper.GetOrNewStateObject, Keeper.GetChainConfig]
        · simp only [Keeper.StaticCall, hp, hl, hc, bind, Q.bind, Q.read, if_true,
            Keeper.GetOrNewStateObject, Keeper.GetChainConfig, StateTransition.StaticCall,
            Bool.not_true, Bool.false_eq_true, if_false]
          generalize (k.evm _ _ cfg s).1 = r
          rcases r with ⟨ret, _ | err⟩ <;> rfl
      · simp [Keeper.StaticCall, hp, hl, pure, Q.pure]
    · simp [Keeper.StaticCall, hp, pure, Q.pure]

/-- C6: for every store, every StaticCall request and however the call ends, the
store after the call is the store before it, so that Balance, Storage and Code of any
address, and every query on the receipt, log and bloom index, run identically before
and after the call. -/
theorem StaticCall_preserves_committed_state (L : Lib) (k : Keeper σ) (c : context.Context)
    (req : Option QueryStaticCallRequest) (s : σ) :
    (k.StaticCall L c req s).store = s
    ∧ (∀ c1 r, (k.Balance L c1 r (k.StaticCall L c req s).store).out = (k.Balance L c1 r s).out)
    ∧ (∀ c1 r, (k.Storage L c1 r (k.StaticCall L c req s).store).out = (k.Storage L c1 r s).out)
    ∧ (∀ c1 r, (k.Code L c1 r (k.StaticCall L c req s).store).out = (k.Code L c1 r s).out)
    ∧ (∀ c1 r, (k.Account L c1 r (k.StaticCall L c req s).store).out = (k.Account L c1 r s).out)
    ∧ (∀ c1 r, (k.TxReceipt L c1 r (k.StaticCall L c req s).store).out
        = (k.TxReceipt L c1 r s).out)
    ∧ (∀ c1 r, (k.TxReceiptsByBlockHeight c1 r (k.StaticCall L c req s).store).out
        = (k.TxReceiptsByBlockHeight c1 r s).out)
    ∧ (∀ c1 r, (k.TxReceiptsByBlockHash L c1 r (k.StaticCall L c req s).store).out
        = (k.TxReceiptsByBlockHash L c1 r s).out)
    ∧ (∀ c1 r, (k.TxLogs L c1 r (k.StaticCall L c req s).store).out = (k.TxLogs L c1 r s).out)
    ∧ (∀ c1 r, (k.BlockLogs L c1 r (k.StaticCall L c req s).store).out
        = (k.BlockLogs L c1 r s).out)
    ∧ (∀ c1 r, (k.BlockBloom L c1 r (k.StaticCall L c req s).store).out
        = (k.BlockBloom L c1 r s).out) := by
  rw [StaticCall_store]
  simp

/-- Witness of C6 on the finite store: the call on `addrA` succeeds, the interpreter
did stage a storage write at `addrA` on its working copy, and the stored value of
`addrA` at key zero reads the same before and after the call. -/
theorem StaticCall_preserves_committed_state_witness :
    (storeKeeper.StaticCall stdLib ctx1 (some ⟨addrA, [1]⟩) store1).out
      = Outcome.returned (some { Data := [1] }) none
    ∧ (∃ st cfg, Call.StaticCall st
          ∈ (storeKeeper.StaticCall stdLib ctx1 (some ⟨addrA, [1]⟩) store1).calls
        ∧ (storeKeeper.evm ctx1.sdkContext st cfg store1).2 ≠ store1)
    ∧ (storeKeeper.Storage stdLib ctx1 (some ⟨addrA, "0x00"⟩)
          (storeKeeper.StaticCall stdLib ctx1 (some ⟨addrA, [1]⟩) store1).store).out
        = (storeKeeper.Storage stdLib ctx1 (some ⟨addrA, "0x00"⟩) store1).out :=
  ⟨by decide,
   ⟨{ AccountNonce := 2, Price := 0, GasLimit := 100000000,
      Recipient := some (HexToAddress addrA), Amount := 0, Payload := [1],
      Csdb := ctx1.sdkContext, ChainID := 1, TxHash := some (BytesToHash []),
      Sender := HexToAddress "0xaDd00275E3d9d213654Ce5223f0FADE8b106b707",
      Simulate := true }, ⟨[1]⟩, by decide, by decide⟩,
   (StaticCall_preserves_committed_state stdLib storeKeeper ctx1 (some ⟨addrA, [1]⟩)
      store1).2.2.1 ctx1 (some ⟨addrA, "0x00"⟩)⟩

end Ethermint
